import Mathlib

/-!
Shallow embedding of the Zone01 profile-viewer client (calculations.js,
graphql.js, auth.js, charts.js, config.js) and verification of its
specification's claims.

Modelling conventions:
* JS numbers that hold integral XP amounts and grades-free data are `Int`;
  tester grades (which may be fractional) are `ℚ`.
* `createdAt` is the numeric value of `new Date(createdAt)` (a timestamp);
  the comparator `new Date(a.createdAt) - new Date(b.createdAt)` is the
  order on these timestamps.
* `Array.prototype.sort` is stable with a consistent comparator, so its
  observable result is the unique stable sorted permutation; we realise it
  with `List.insertionSort`, which is stable.
* The host's `Date#toLocaleDateString` depends on the runtime locale and
  timezone, so it is an ambient parameter of `calculateXpProgress`; we pass
  it explicitly as `fmt : Int → String`.
* A JS argument that may be `undefined`/`null` or a non-array is a
  `JsInput`; fallible effects (storage, HTTP) are explicit inputs, and the
  side effects of a fetch (messages displayed, logout, request count) are
  returned as a trace.
-/

/-- The object nested in a transaction record (`tx.object`). -/
structure TxObject where
  name : Option String
  type : String
deriving DecidableEq, Repr

/-- A transaction record as consumed by calculations.js. -/
structure Transaction where
  amount : Int
  type : String
  createdAt : Int
  object : Option TxObject
deriving DecidableEq, Repr

/-- A JS argument that the guard `!x || !Array.isArray(x)` classifies:
`undef` is `undefined`/`null` (falsy), `nonList` is a truthy non-array
value such as `{}`, and `arr` is an actual array. -/
inductive JsInput (α : Type) where
  | undef : JsInput α
  | nonList : JsInput α
  | arr : List α → JsInput α
deriving DecidableEq, Repr

/-- One point of the XP-progress series (`{date, totalXp, totalXpMB}`). -/
structure XpPoint where
  date : String
  totalXp : Int
  totalXpMB : String
deriving DecidableEq, Repr

/-- The filter `t.type === 'xp' && t.object?.type === 'project'`. -/
def isProjectXp (t : Transaction) : Bool :=
  decide (t.type = "xp") &&
    (match t.object with
     | some o => decide (o.type = "project")
     | none => false)

/-- Ascending order on `createdAt`, the comparator
`(a, b) => new Date(a.createdAt) - new Date(b.createdAt)`. -/
def byCreatedAt (a b : Transaction) : Prop := a.createdAt ≤ b.createdAt

instance : DecidableRel byCreatedAt :=
  fun a b => inferInstanceAs (Decidable (a.createdAt ≤ b.createdAt))

/-- The stable ascending-by-`createdAt` sort performed by
`calculateXpProgress`. -/
def sortByCreatedAt (l : List Transaction) : List Transaction :=
  List.insertionSort byCreatedAt l

/-- Decimal digit character for `d < 10`. -/
def digitChar (d : Nat) : Char := Char.ofNat (48 + d)

/-- Fuel-driven most-significant-first decimal digits of a natural number
(fuel-structural so the kernel can evaluate it). -/
def natDecimalAux : Nat → Nat → List Char
  | 0, _ => []
  | fuel + 1, n =>
      if n = 0 then []
      else natDecimalAux fuel (n / 10) ++ [digitChar (n % 10)]

/-- Decimal rendering of a natural number. -/
def natDecimal (n : Nat) : String :=
  if n = 0 then "0" else String.mk (natDecimalAux (n + 1) n)

/-- Models `(xp / 1000000).toFixed(2)` on an integral XP count: the value in
micro-units rendered in mega-units with two decimals — rounding half away
from zero on the exact rational (IEEE-754 binary ties may differ, but no
claim depends on tie behavior). -/
def toFixed2MB (xp : Int) : String :=
  let cents : Nat := (xp.natAbs + 5000) / 10000
  let intPart : Nat := cents / 100
  let frac : Nat := cents % 100
  let fracStr : String :=
    if frac < 10 then "0" ++ natDecimal frac else natDecimal frac
  (if xp < 0 then "-" else "") ++ natDecimal intPart ++ "." ++ fracStr

/-- The cumulative scan inside `calculateXpProgress`: `cumulativeXp` starts
at the accumulator and each record is mapped to
`{date: fmt(createdAt), totalXp: cumulativeXp, totalXpMB}` after adding its
`amount`. -/
def cumulativeFrom (fmt : Int → String) : Int → List Transaction → List XpPoint
  | _, [] => []
  | acc, tx :: rest =>
      let acc2 := acc + tx.amount
      ⟨fmt tx.createdAt, acc2, toFixed2MB acc2⟩ :: cumulativeFrom fmt acc2 rest

/-- `calculateXpProgress` (calculations.js): guard non-arrays to `[]`,
filter to project-XP records, sort ascending by `createdAt`, and emit the
cumulative series. `fmt` is the host's `Date#toLocaleDateString`. -/
def calculateXpProgress (fmt : Int → String) : JsInput Transaction → List XpPoint
  | .arr ts => cumulativeFrom fmt 0 (sortByCreatedAt (ts.filter isProjectXp))
  | _ => []

/-- The grouping key `tx.object?.name || 'Unknown Project'` (the JS `||`
falls through on an absent name and on the empty string, both falsy). -/
def projectKey (t : Transaction) : String :=
  match t.object with
  | some o =>
      match o.name with
      | some s => if s = "" then "Unknown Project" else s
      | none => "Unknown Project"
  | none => "Unknown Project"

/-- One step `acc[projectName] = (acc[projectName] || 0) + tx.amount` on a
JS object modelled as an insertion-ordered association list: an existing
key keeps its position, a new key is appended. -/
def addXp : List (String × Int) → String → Int → List (String × Int)
  | [], k, a => [(k, a)]
  | (k', v) :: rest, k, a =>
      if k' = k then (k', v + a) :: rest else (k', v) :: addXp rest k a

/-- `calculateXpByProject` (calculations.js): guard non-arrays to `{}`,
filter to project-XP records, and group-sum `amount` by `projectKey`. -/
def calculateXpByProject : JsInput Transaction → List (String × Int)
  | .arr ts =>
      (ts.filter isProjectXp).foldl
        (fun acc tx => addXp acc (projectKey tx) tx.amount) []
  | _ => []

/-- Sum of the values of an XP-by-project mapping. -/
def sumValues : List (String × Int) → Int
  | [] => 0
  | (_, v) :: rest => v + sumValues rest

/-- Sum of the `amount` fields of a transaction list. -/
def sumAmounts : List Transaction → Int
  | [] => 0
  | t :: rest => t.amount + sumAmounts rest

/-- A result record as consumed by `calculatePassFailCounts`; `grade` is
`none` for JS `null`. -/
structure ResultRec where
  type : String
  grade : Option ℚ
  path : String
  createdAt : Int
deriving DecidableEq, Repr

/-- The `{passed, failed, total}` accumulator of `calculatePassFailCounts`. -/
structure PassFail where
  passed : Nat
  failed : Nat
  total : Nat
deriving DecidableEq, Repr

/-- `calculatePassFailCounts` (calculations.js): guard non-arrays to zero
counts, filter to `type === 'tester' && grade !== null`, then count grade
`1` as passed and grade in `[0,1)` as failed, always counting total. -/
def calculatePassFailCounts : JsInput ResultRec → PassFail
  | .arr rs =>
      (rs.filter fun r => decide (r.type = "tester") && decide (r.grade ≠ none)).foldl
        (fun acc r =>
          let acc1 : PassFail := { acc with total := acc.total + 1 }
          match r.grade with
          | some g =>
              if g = 1 then { acc1 with passed := acc1.passed + 1 }
              else if g < 1 ∧ 0 ≤ g then { acc1 with failed := acc1.failed + 1 }
              else acc1
          | none => acc1)
        ⟨0, 0, 0⟩
  | _ => ⟨0, 0, 0⟩

/-- Boolean non-decreasing predicate on an integer sequence (the shape of a
"totalXp sequence is non-decreasing" check). -/
def nonDecreasing : List Int → Bool
  | [] => true
  | [_] => true
  | a :: b :: rest => decide (a ≤ b) && nonDecreasing (b :: rest)

/-! ## config.js: the predefined user-facing strings -/

namespace ErrorMessages

def NETWORK_ERROR : String :=
  "Network error occurred. Please check your internet connection and try again."

def INVALID_CREDENTIALS : String := "Invalid username/email or password."

def SESSION_EXPIRED : String := "Your session has expired. Please log in again."

def DATA_FETCH_ERROR : String := "Failed to fetch your data. Please try again later."

def NO_DATA : String := "No data available for this section."

def UNKNOWN_ERROR : String := "An unexpected error occurred. Please try again."

def STORAGE_ERROR : String := "Failed to save your session. Please try again."

def JWT_ERROR : String := "Session token is invalid. Please log in again."

end ErrorMessages

/-! ## auth.js / graphql.js: session, DOM effects and the fetch contract -/

/-- The DOM pieces touched by `displayErrorMessage`, `hideErrorMessage` and
`logout`. -/
structure Dom where
  errorText : String
  errorVisible : Bool
  headerHtml : String
  headerVisible : Bool
  profileHtml : String
  profileVisible : Bool
  loginVisible : Bool
  usernameValue : String
  passwordValue : String
deriving DecidableEq, Repr

/-- Application state: the single session-token slot plus the DOM. -/
structure AppState where
  jwtToken : Option String
  dom : Dom
deriving DecidableEq, Repr

/-- `displayErrorMessage` (auth.js): set the text and show the div. -/
def displayErrorMessage (msg : String) (d : Dom) : Dom :=
  { d with errorText := msg, errorVisible := true }

/-- `hideErrorMessage` (auth.js): clear the text and hide the div. -/
def hideErrorMessage (d : Dom) : Dom :=
  { d with errorText := "", errorVisible := false }

/-- `logout` (auth.js): remove the token, hide and empty the header and the
profile area, show the login section, clear both inputs, then hide the
error message. -/
def logout (st : AppState) : AppState :=
  { jwtToken := none
    dom := hideErrorMessage
      { st.dom with
          headerVisible := false, headerHtml := ""
          profileVisible := false, profileHtml := ""
          loginVisible := true
          usernameValue := "", passwordValue := "" } }

/-- One GraphQL response-level error `{message, extensions?: {code}}`. -/
structure GqlError where
  message : String
  extCode : Option String
deriving DecidableEq, Repr

/-- What the single network call resolves to: a 2xx JSON body (whose
`errors` field may be absent, or present with a list), a non-ok HTTP
status, or a thrown transport/parse error. -/
inductive HttpOutcome where
  | success (errors : Option (List GqlError)) (payload : String)
  | httpFailure (status : Nat)
  | transportError
deriving DecidableEq, Repr

/-- The observable result of one `fetchGraphQLData` run: the final
application state, the returned value (`none` models `null`), the number of
network requests issued, and the messages passed to `displayErrorMessage`
in order. -/
structure FetchResult where
  state : AppState
  returned : Option String
  requests : Nat
  signaled : List String
deriving DecidableEq, Repr

/-- `fetchGraphQLData` (graphql.js). `storageOk = false` models
`localStorage.getItem` throwing; otherwise the token is read from the
state. Branches in source order: missing token → session-expired message
and logout with no request; HTTP 401/403 → session-expired message and
logout; other non-ok status → thrown, caught, network-error message; a
truthy `data.errors` → jwt-error message and logout when some error carries
`extensions.code === 'invalid-jwt'`, else the fixed data-fetch-error
message; otherwise return `data.data`. -/
def fetchGraphQLData (storageOk : Bool) (outcome : HttpOutcome) (st : AppState) :
    FetchResult :=
  if !storageOk then
    ⟨{ st with dom := displayErrorMessage ErrorMessages.STORAGE_ERROR st.dom },
      none, 0, [ErrorMessages.STORAGE_ERROR]⟩
  else
    match st.jwtToken with
    | none =>
        ⟨logout { st with dom := displayErrorMessage ErrorMessages.SESSION_EXPIRED st.dom },
          none, 0, [ErrorMessages.SESSION_EXPIRED]⟩
    | some _ =>
        match outcome with
        | .transportError =>
            ⟨{ st with dom := displayErrorMessage ErrorMessages.NETWORK_ERROR st.dom },
              none, 1, [ErrorMessages.NETWORK_ERROR]⟩
        | .httpFailure status =>
            if status = 401 ∨ status = 403 then
              ⟨logout { st with dom := displayErrorMessage ErrorMessages.SESSION_EXPIRED st.dom },
                none, 1, [ErrorMessages.SESSION_EXPIRED]⟩
            else
              ⟨{ st with dom := displayErrorMessage ErrorMessages.NETWORK_ERROR st.dom },
                none, 1, [ErrorMessages.NETWORK_ERROR]⟩
        | .success errors payload =>
            match errors with
            | some errs =>
                if errs.any fun e => decide (e.extCode = some "invalid-jwt") then
                  ⟨logout { st with dom := displayErrorMessage ErrorMessages.JWT_ERROR st.dom },
                    none, 1, [ErrorMessages.JWT_ERROR]⟩
                else
                  ⟨{ st with dom := displayErrorMessage ErrorMessages.DATA_FETCH_ERROR st.dom },
                    none, 1, [ErrorMessages.DATA_FETCH_ERROR]⟩
            | none => ⟨st, some payload, 1, []⟩

/-! ## charts.js: data selection and container-replacement semantics -/

/-- A skill node `{type, amount}` (an absent `type` makes
`item.type?.startsWith(...)` falsy). -/
structure SkillNode where
  type : Option String
  amount : Int
deriving DecidableEq, Repr

/-- A radar-chart point `{name, value}`. -/
structure SkillPoint where
  name : String
  value : Int
deriving DecidableEq, Repr

/-- Kernel-evaluable prefix test on character lists (the meaning of
`String.prototype.startsWith`). -/
def isPrefixOfChars : List Char → List Char → Bool
  | [], _ => true
  | _ :: _, [] => false
  | a :: as, b :: bs => decide (a = b) && isPrefixOfChars as bs

/-- `type.replace('-', ' ')`: replace the first hyphen with a space. -/
def replaceFirstHyphen : List Char → List Char
  | [] => []
  | c :: cs => if c = '-' then ' ' :: cs else c :: replaceFirstHyphen cs

/-- `type.replace('skill_', '').replace('-', ' ')` on a string known to
start with `skill_` (so the first replacement strips the 6-character
prefix). -/
def skillLabel (s : String) : String :=
  String.mk (replaceFirstHyphen (s.data.drop 6))

/-- The filter/map in `drawSkillsRadarChart` producing `{name, value}`
points from skill nodes. -/
def skillSeries (nodes : List SkillNode) : List SkillPoint :=
  (nodes.filter fun n =>
      match n.type with
      | some s => isPrefixOfChars "skill_".data s.data
      | none => false).map
    fun n => ⟨skillLabel ((n.type).getD ""), n.amount⟩

/-- The content of a chart container after a render: either plain text (the
no-data fallback or arbitrary prior content) or one of the three SVG
drawings. Each drawing is a pure function of the series listed in its
constructor — the floating-point SVG geometry is determined by (and
abstracted as) that series. -/
inductive ChartContent where
  | text (s : String)
  | svgLine (points : List XpPoint)
  | svgBar (entries : List (String × Int))
  | svgRadar (skills : List SkillPoint)
  | other (s : String)
deriving DecidableEq, Repr

/-- `drawXpProgressLineChart` (charts.js) at content level: a `none`
container returns untouched; otherwise prior content is cleared and either
the no-data text (`!data || data.length === 0`, with `data = []` when the
argument is absent) or the SVG built from `data` becomes the content. -/
def drawXpProgressLineChart (container : Option ChartContent)
    (data : Option (List XpPoint)) : Option ChartContent :=
  match container with
  | none => none
  | some _ =>
      match data with
      | none => some (.text ErrorMessages.NO_DATA)
      | some [] => some (.text ErrorMessages.NO_DATA)
      | some l => some (.svgLine l)

/-- `data[k]` on the JS object modelled as an association list (first
binding wins; `0` is never reached when `k` is a key of `data`). -/
def getVal (data : List (String × Int)) (k : String) : Int :=
  match data with
  | [] => 0
  | (k', v) :: rest => if k' = k then v else getVal rest k

/-- Descending order by looked-up value, the comparator
`(a, b) => data[b] - data[a]` of `drawXpByProjectBarChart`. -/
def byValueDesc (data : List (String × Int)) (a b : String) : Prop :=
  getVal data b ≤ getVal data a

instance (data : List (String × Int)) : DecidableRel (byValueDesc data) :=
  fun a b => inferInstanceAs (Decidable (getVal data b ≤ getVal data a))

/-- `Object.keys(data).sort((a, b) => data[b] - data[a])`. -/
def barSortedKeys (data : List (String × Int)) : List String :=
  List.insertionSort (byValueDesc data) (data.map Prod.fst)

/-- `projects.slice(0, 10).map(proj => ({name: proj, xp: data[proj]}))`:
the entries actually rendered by the bar chart. -/
def barDisplayData (data : List (String × Int)) : List (String × Int) :=
  ((barSortedKeys data).take 10).map fun k => (k, getVal data k)

/-- `drawXpByProjectBarChart` (charts.js) at content level: prior content
is cleared; an empty key set yields the no-data text, otherwise the SVG
built from the sorted-and-truncated entries. An absent argument defaults
to `{}`. -/
def drawXpByProjectBarChart (container : Option ChartContent)
    (data : Option (List (String × Int))) : Option ChartContent :=
  match container with
  | none => none
  | some _ =>
      let d := data.getD []
      if (barSortedKeys d).length = 0 then some (.text ErrorMessages.NO_DATA)
      else some (.svgBar (barDisplayData d))

/-- `drawSkillsRadarChart` (charts.js) at content level: prior content is
cleared; absent or empty input, or an input with no `skill_`-prefixed
entries, yields the no-data text, otherwise the SVG built from the skill
series. -/
def drawSkillsRadarChart (container : Option ChartContent)
    (data : Option (List SkillNode)) : Option ChartContent :=
  match container with
  | none => none
  | some _ =>
      match data with
      | none => some (.text ErrorMessages.NO_DATA)
      | some [] => some (.text ErrorMessages.NO_DATA)
      | some l =>
          if (skillSeries l).length = 0 then some (.text ErrorMessages.NO_DATA)
          else some (.svgRadar (skillSeries l))

/-! ## Concrete environments used by closed statements -/

/-- A host date-formatting environment (one locale/timezone's
`Date#toLocaleDateString`), US-style. -/
def localeFmtA (t : Int) : String :=
  if t ≤ 0 then "1/1/1970" else "1/2/1970"

/-- A second host date-formatting environment, European-style. -/
def localeFmtB (t : Int) : String :=
  if t ≤ 0 then "01.01.1970" else "02.01.1970"

/-- A DOM as it looks on a loaded profile page. -/
def loadedDom : Dom :=
  ⟨"", false, "<header>", true, "<profile>", true, false, "", ""⟩

/-- The underlying list of a JS array argument (empty for non-arrays). -/
def inputList {α : Type} : JsInput α → List α
  | .arr l => l
  | _ => []

/-- Two project-XP records whose second `amount` is negative. -/
def exNegTs : List Transaction :=
  [⟨5, "xp", 0, some ⟨some "P1", "project"⟩⟩,
   ⟨-3, "xp", 1, some ⟨some "P1", "project"⟩⟩]

/-- The spec's end-to-end example: 1000000 XP on P1 then 2000000 XP on P2. -/
def exTwoTs : List Transaction :=
  [⟨1000000, "xp", 0, some ⟨some "P1", "project"⟩⟩,
   ⟨2000000, "xp", 1, some ⟨some "P2", "project"⟩⟩]

/-- A project-XP record whose object carries no name. -/
def exNoName : Transaction := ⟨100, "xp", 0, some ⟨none, "project"⟩⟩

/-- A list holding only the nameless record. -/
def exNoNameTs : List Transaction := [exNoName]

/-- A single project-XP record (locale-dependence example). -/
def exOneTs : List Transaction := [⟨7, "xp", 0, some ⟨some "P1", "project"⟩⟩]

/-- Fifteen projects with pairwise distinct XP sums, in scrambled order. -/
def ex15 : List (String × Int) :=
  [("P01", 10), ("P02", 120), ("P03", 30), ("P04", 140), ("P05", 50),
   ("P06", 60), ("P07", 70), ("P08", 80), ("P09", 90), ("P10", 100),
   ("P11", 110), ("P12", 20), ("P13", 130), ("P14", 40), ("P15", 150)]

/-- One response-level error carrying the invalid-jwt sentinel code. -/
def invalidJwtErrors : List GqlError :=
  [⟨"Could not verify JWT: JWTExpired", some "invalid-jwt"⟩]

/-- Two response-level errors carrying no invalid-jwt code. -/
def plainErrors : List GqlError :=
  [⟨"field A missing", none⟩, ⟨"field B missing", some "validation-failed"⟩]

/-! ## Helper lemmas -/

theorem cumulativeFrom_length (fmt : Int → String) (a : Int) (l : List Transaction) :
    (cumulativeFrom fmt a l).length = l.length := by
  induction l generalizing a with
  | nil => rfl
  | cons t rest ih => simp [cumulativeFrom, ih]

theorem sortByCreatedAt_perm (l : List Transaction) : (sortByCreatedAt l).Perm l :=
  List.perm_insertionSort byCreatedAt l

theorem sortByCreatedAt_length (l : List Transaction) :
    (sortByCreatedAt l).length = l.length :=
  (sortByCreatedAt_perm l).length_eq

theorem nonDecreasing_tail (a : Int) (xs : List Int)
    (h : nonDecreasing (a :: xs) = true) : nonDecreasing xs = true := by
  cases xs with
  | nil => rfl
  | cons b rest =>
      simp only [nonDecreasing, Bool.and_eq_true] at h
      exact h.2

theorem cumulativeFrom_nonDecreasing_from (fmt : Int → String) (l : List Transaction) :
    ∀ a : Int, (∀ t ∈ l, 0 ≤ t.amount) →
      nonDecreasing (a :: (cumulativeFrom fmt a l).map XpPoint.totalXp) = true := by
  induction l with
  | nil => intro a _; rfl
  | cons t rest ih =>
      intro a h
      have ht : 0 ≤ t.amount := h t (List.mem_cons_self t rest)
      have hrest : ∀ u ∈ rest, 0 ≤ u.amount := fun u hu => h u (List.mem_cons_of_mem t hu)
      have ihr := ih (a + t.amount) hrest
      simp only [cumulativeFrom, List.map_cons, nonDecreasing, Bool.and_eq_true]
      refine ⟨by simpa using ht, ?_⟩
      simpa [nonDecreasing] using ihr

theorem sumAmounts_eq_map_sum (l : List Transaction) :
    sumAmounts l = (l.map Transaction.amount).sum := by
  induction l with
  | nil => rfl
  | cons t rest ih => simp [sumAmounts, ih]

theorem sumAmounts_perm {l l' : List Transaction} (h : l.Perm l') :
    sumAmounts l = sumAmounts l' := by
  rw [sumAmounts_eq_map_sum, sumAmounts_eq_map_sum]
  exact (h.map Transaction.amount).sum_eq

theorem cumulativeFrom_last (fmt : Int → String) (l : List Transaction) :
    ∀ a : Int, l ≠ [] →
      ((cumulativeFrom fmt a l).map XpPoint.totalXp).getLast? = some (a + sumAmounts l) := by
  induction l with
  | nil => intro a h; exact absurd rfl h
  | cons t rest ih =>
      intro a _
      cases rest with
      | nil => simp [cumulativeFrom, sumAmounts]
      | cons u rest' =>
          have := ih (a + t.amount) (by simp)
          simp only [cumulativeFrom, List.map_cons] at this ⊢
          rw [List.getLast?_cons_cons, this]
          simp [sumAmounts]
          ring

theorem sumValues_addXp (m : List (String × Int)) (k : String) (a : Int) :
    sumValues (addXp m k a) = sumValues m + a := by
  induction m with
  | nil => simp [addXp, sumValues]
  | cons kv rest ih =>
      obtain ⟨k', v⟩ := kv
      by_cases h : k' = k
      · simp [addXp, h, sumValues]; ring
      · simp [addXp, h, sumValues, ih]; ring

theorem sumValues_foldl (l : List Transaction) :
    ∀ acc : List (String × Int),
      sumValues (l.foldl (fun acc tx => addXp acc (projectKey tx) tx.amount) acc) =
        sumValues acc + sumAmounts l := by
  induction l with
  | nil => intro acc; simp [sumAmounts]
  | cons t rest ih =>
      intro acc
      simp only [List.foldl_cons, sumAmounts]
      rw [ih, sumValues_addXp]
      ring

theorem mem_keys_addXp_self (m : List (String × Int)) (k : String) (a : Int) :
    k ∈ (addXp m k a).map Prod.fst := by
  induction m with
  | nil => simp [addXp]
  | cons kv rest ih =>
      obtain ⟨k', v⟩ := kv
      by_cases h : k' = k
      · simp [addXp, h]
      · simp [addXp, h, ih]

theorem mem_keys_addXp_of_mem (m : List (String × Int)) (k k' : String) (a : Int)
    (h : k' ∈ m.map Prod.fst) : k' ∈ (addXp m k a).map Prod.fst := by
  induction m with
  | nil => simp at h
  | cons kv rest ih =>
      obtain ⟨k0, v⟩ := kv
      by_cases hk : k0 = k
      · simpa [addXp, hk] using (by simpa [hk] using h)
      · simp only [List.map_cons, List.mem_cons] at h
        rcases h with h | h
        · simp [addXp, hk, h]
        · simp [addXp, hk, ih h]

theorem mem_keys_foldl_of_mem_acc (l : List Transaction) :
    ∀ (acc : List (String × Int)) (k : String), k ∈ acc.map Prod.fst →
      k ∈ (l.foldl (fun acc tx => addXp acc (projectKey tx) tx.amount) acc).map Prod.fst := by
  induction l with
  | nil => intro acc k h; simpa using h
  | cons t rest ih =>
      intro acc k h
      exact ih _ k (mem_keys_addXp_of_mem acc (projectKey t) k t.amount h)

theorem mem_keys_foldl_of_mem (l : List Transaction) (t : Transaction) (ht : t ∈ l) :
    ∀ acc : List (String × Int),
      projectKey t ∈ (l.foldl (fun acc tx => addXp acc (projectKey tx) tx.amount) acc).map Prod.fst := by
  induction l with
  | nil => exact absurd ht (List.not_mem_nil t)
  | cons u rest ih =>
      intro acc
      rcases List.mem_cons.mp ht with h | h
      · subst h
        exact mem_keys_foldl_of_mem_acc rest _ _ (mem_keys_addXp_self acc (projectKey t) t.amount)
      · exact ih h _

theorem mem_of_getVal (data : List (String × Int)) (k : String)
    (h : k ∈ data.map Prod.fst) : (k, getVal data k) ∈ data := by
  induction data with
  | nil => simp at h
  | cons kv rest ih =>
      obtain ⟨k', v⟩ := kv
      by_cases hk : k' = k
      · subst hk; simp [getVal]
      · simp only [List.map_cons, List.mem_cons] at h
        rcases h with h | h
        · exact absurd h.symm hk
        · simp [getVal, hk, ih h]

theorem cumulativeFrom_map_pair (fmt₁ fmt₂ : Int → String) (l : List Transaction) :
    ∀ a : Int,
      (cumulativeFrom fmt₁ a l).map (fun p => (p.totalXp, p.totalXpMB)) =
        (cumulativeFrom fmt₂ a l).map (fun p => (p.totalXp, p.totalXpMB)) := by
  induction l with
  | nil => intro a; rfl
  | cons t rest ih => intro a; simp [cumulativeFrom, ih (a + t.amount)]

theorem cumulativeFrom_map_date (fmt : Int → String) (l : List Transaction) :
    ∀ a : Int,
      (cumulativeFrom fmt a l).map XpPoint.date = l.map fun t => fmt t.createdAt := by
  induction l with
  | nil => intro a; rfl
  | cons t rest ih => intro a; simp [cumulativeFrom, ih (a + t.amount)]

/-! ## Claims -/

/-- C6: the series transforms are total on missing or empty input:
`calculateXpByProject` on an absent, non-list, or empty input returns an
empty mapping, `calculateXpProgress` on the same inputs returns an empty
sequence, and `calculatePassFailCounts` on the same inputs returns zero
counts — none of them can fail. -/
theorem transforms_total_on_missing_input :
    ∀ fmt : Int → String,
      calculateXpProgress fmt .undef = [] ∧
      calculateXpProgress fmt .nonList = [] ∧
      calculateXpProgress fmt (.arr []) = [] ∧
      calculateXpByProject .undef = [] ∧
      calculateXpByProject .nonList = [] ∧
      calculateXpByProject (.arr []) = [] ∧
      calculatePassFailCounts .undef = ⟨0, 0, 0⟩ ∧
      calculatePassFailCounts .nonList = ⟨0, 0, 0⟩ ∧
      calculatePassFailCounts (.arr []) = ⟨0, 0, 0⟩ := by
  intro fmt
  exact ⟨rfl, rfl, rfl, rfl, rfl, rfl, rfl, rfl, rfl⟩

/-- C3: `fetchGraphQLData` requires a stored token: with no token it issues
no request, signals the session-expired message, logs out (token cleared,
login visible) and returns `null`; and on HTTP 401 or 403 it signals the
session-expired message, logs out and returns `null`, having issued exactly
one request (no retry). -/
theorem fetchGraphQLData_session_precondition :
    ∀ (dom : Dom) (outcome : HttpOutcome) (tok : String),
      (let r := fetchGraphQLData true outcome ⟨none, dom⟩
       r.requests = 0 ∧ r.signaled = [ErrorMessages.SESSION_EXPIRED] ∧
         r.state.jwtToken = none ∧ r.state.dom.loginVisible = true ∧
         r.state.dom.profileHtml = "" ∧ r.returned = none) ∧
      (let r := fetchGraphQLData true (.httpFailure 401) ⟨some tok, dom⟩
       r.requests = 1 ∧ r.signaled = [ErrorMessages.SESSION_EXPIRED] ∧
         r.state.jwtToken = none ∧ r.state.dom.loginVisible = true ∧
         r.state.dom.profileHtml = "" ∧ r.returned = none) ∧
      (let r := fetchGraphQLData true (.httpFailure 403) ⟨some tok, dom⟩
       r.requests = 1 ∧ r.signaled = [ErrorMessages.SESSION_EXPIRED] ∧
         r.state.jwtToken = none ∧ r.state.dom.loginVisible = true ∧
         r.state.dom.profileHtml = "" ∧ r.returned = none) := by
  intro dom outcome tok
  exact ⟨⟨rfl, rfl, rfl, rfl, rfl, rfl⟩, ⟨rfl, rfl, rfl, rfl, rfl, rfl⟩,
    ⟨rfl, rfl, rfl, rfl, rfl, rfl⟩⟩

/-- C4 counterexample: on a fetch receiving HTTP 401 the message passed to
`displayErrorMessage` is the session-expired string, not the
invalid-credentials string, and the error div ends up empty (cleared by
`logout`'s `hideErrorMessage`), so the user-facing message never equals the
predefined invalid-credentials string. -/
theorem fetch401_message_cex :
    (fetchGraphQLData true (.httpFailure 401) ⟨some "tok", loadedDom⟩).signaled ≠
        [ErrorMessages.INVALID_CREDENTIALS] ∧
      (fetchGraphQLData true (.httpFailure 401) ⟨some "tok", loadedDom⟩).state.dom.errorText ≠
        ErrorMessages.INVALID_CREDENTIALS ∧
      (fetchGraphQLData true (.httpFailure 401) ⟨some "tok", loadedDom⟩).signaled =
        [ErrorMessages.SESSION_EXPIRED] :=
  ⟨by decide, by decide, by decide⟩

/-- C4 amended: a fetch receiving HTTP 401 clears the session token,
reaches the logged-out state (login visible, profile and header content
removed), and the message it signals is the predefined session-expired
string — which `logout`'s `hideErrorMessage` then removes from the error
div. -/
theorem fetch401_logs_out_with_session_expired :
    ∀ (tok : String) (dom : Dom),
      let r := fetchGraphQLData true (.httpFailure 401) ⟨some tok, dom⟩
      r.state.jwtToken = none ∧ r.state.dom.loginVisible = true ∧
        r.state.dom.profileHtml = "" ∧ r.state.dom.profileVisible = false ∧
        r.state.dom.headerHtml = "" ∧ r.state.dom.headerVisible = false ∧
        r.signaled = [ErrorMessages.SESSION_EXPIRED] ∧
        r.state.dom.errorText = "" ∧ r.returned = none := by
  intro tok dom
  exact ⟨rfl, rfl, rfl, rfl, rfl, rfl, rfl, rfl, rfl⟩

/-- C5 counterexample: a successful response whose error list carries the
invalid-jwt code signals the invalid-token (`JWT_ERROR`) message while the
HTTP 401 case signals the session-expired message — the two behaviors are
not identical; and when no invalid-jwt code is present, the fixed
data-fetch-error string is signaled, not a join of the error messages. -/
theorem invalidJwt_errors_cex :
    (fetchGraphQLData true (.success (some invalidJwtErrors) "d") ⟨some "tok", loadedDom⟩).signaled =
        [ErrorMessages.JWT_ERROR] ∧
      (fetchGraphQLData true (.httpFailure 401) ⟨some "tok", loadedDom⟩).signaled =
        [ErrorMessages.SESSION_EXPIRED] ∧
      ErrorMessages.JWT_ERROR ≠ ErrorMessages.SESSION_EXPIRED ∧
      (fetchGraphQLData true (.success (some plainErrors) "d") ⟨some "tok", loadedDom⟩).signaled =
        [ErrorMessages.DATA_FETCH_ERROR] :=
  ⟨by decide, by decide, by decide, by decide⟩

/-- C5 amended: on a successful response carrying an error list, an
invalid-jwt code clears the session and logs out exactly as 401/403 does
but signals the invalid-token (`JWT_ERROR`) message; with no such code the
fixed data-fetch-error string is signaled and the session is kept. -/
theorem fetch_response_errors_contract :
    ∀ (tok : String) (dom : Dom) (errs : List GqlError) (payload : String),
      ((errs.any fun e => decide (e.extCode = some "invalid-jwt")) = true →
        let r := fetchGraphQLData true (.success (some errs) payload) ⟨some tok, dom⟩
        r.state.jwtToken = none ∧ r.state.dom.loginVisible = true ∧
          r.signaled = [ErrorMessages.JWT_ERROR] ∧ r.returned = none ∧ r.requests = 1) ∧
      ((errs.any fun e => decide (e.extCode = some "invalid-jwt")) = false →
        let r := fetchGraphQLData true (.success (some errs) payload) ⟨some tok, dom⟩
        r.state.jwtToken = some tok ∧
          r.signaled = [ErrorMessages.DATA_FETCH_ERROR] ∧
          r.state.dom = displayErrorMessage ErrorMessages.DATA_FETCH_ERROR dom ∧
          r.returned = none ∧ r.requests = 1) := by
  intro tok dom errs payload
  constructor
  · intro h
    simp [fetchGraphQLData, h, logout, displayErrorMessage, hideErrorMessage]
  · intro h
    simp [fetchGraphQLData, h, displayErrorMessage]

/-- C5 witness: the amended contract evaluated on the concrete invalid-jwt
and plain error lists. -/
theorem fetch_response_errors_witness :
    ((fetchGraphQLData true (.success (some invalidJwtErrors) "d") ⟨some "t", loadedDom⟩).state.jwtToken =
        none ∧
      (fetchGraphQLData true (.success (some invalidJwtErrors) "d") ⟨some "t", loadedDom⟩).signaled =
        [ErrorMessages.JWT_ERROR]) ∧
      ((fetchGraphQLData true (.success (some plainErrors) "d") ⟨some "t", loadedDom⟩).state.jwtToken =
        some "t" ∧
      (fetchGraphQLData true (.success (some plainErrors) "d") ⟨some "t", loadedDom⟩).signaled =
        [ErrorMessages.DATA_FETCH_ERROR]) := by
  have h1 := (fetch_response_errors_contract "t" loadedDom invalidJwtErrors "d").1 (by decide)
  have h2 := (fetch_response_errors_contract "t" loadedDom plainErrors "d").2 (by decide)
  exact ⟨⟨h1.1, h1.2.2.1⟩, ⟨h2.1, h2.2.1⟩⟩

/-- C1 counterexample: a transaction list the function accepts whose second
project-XP record has a negative `amount` yields the cumulative series
`[5, 2]`, whose `totalXp` sequence is not non-decreasing (the length half
of the claim does hold here). -/
theorem calculateXpProgress_monotone_cex :
    (calculateXpProgress localeFmtA (.arr exNegTs)).map XpPoint.totalXp = [5, 2] ∧
      nonDecreasing ((calculateXpProgress localeFmtA (.arr exNegTs)).map XpPoint.totalXp) =
        false :=
  ⟨by decide, by decide⟩

/-- C1 amended: whenever every project-XP record of the input has a
non-negative `amount` (the data model's upstream invariant, not enforced by
the code), the `totalXp` sequence of `calculateXpProgress` is
non-decreasing; and unconditionally the output length equals the number of
records with `type == "xp"` and `object.type == "project"`. -/
theorem calculateXpProgress_monotone_of_nonneg :
    ∀ (fmt : Int → String) (ts : List Transaction),
      ((∀ t ∈ ts.filter isProjectXp, 0 ≤ t.amount) →
        nonDecreasing ((calculateXpProgress fmt (.arr ts)).map XpPoint.totalXp) = true) ∧
      (calculateXpProgress fmt (.arr ts)).length = (ts.filter isProjectXp).length := by
  intro fmt ts
  constructor
  · intro h
    have hs : ∀ t ∈ sortByCreatedAt (ts.filter isProjectXp), 0 ≤ t.amount := by
      intro t ht
      exact h t ((sortByCreatedAt_perm _).mem_iff.mp ht)
    have hnd := cumulativeFrom_nonDecreasing_from fmt
      (sortByCreatedAt (ts.filter isProjectXp)) 0 hs
    exact nonDecreasing_tail _ _ hnd
  · show (cumulativeFrom fmt 0 (sortByCreatedAt (ts.filter isProjectXp))).length = _
    rw [cumulativeFrom_length, sortByCreatedAt_length]

/-- C1 witness: the amended claim evaluated on the spec's two-record
example, whose amounts are non-negative. -/
theorem calculateXpProgress_monotone_witness :
    nonDecreasing ((calculateXpProgress localeFmtA (.arr exTwoTs)).map XpPoint.totalXp) =
        true ∧
      (calculateXpProgress localeFmtA (.arr exTwoTs)).length =
        (exTwoTs.filter isProjectXp).length :=
  ⟨(calculateXpProgress_monotone_of_nonneg localeFmtA exTwoTs).1 (by decide),
    (calculateXpProgress_monotone_of_nonneg localeFmtA exTwoTs).2⟩

/-- C2: the sum of the values of `calculateXpByProject` equals the sum of
`amount` over the records with `type == "xp"` and `object.type ==
"project"` (no XP lost or double-counted); moreover every filtered record's
grouping key is a key of the mapping, and a record lacking an `object.name`
is grouped under the literal key "Unknown Project". -/
theorem calculateXpByProject_sum_preserved :
    ∀ ts : List Transaction,
      sumValues (calculateXpByProject (.arr ts)) = sumAmounts (ts.filter isProjectXp) ∧
      ∀ t ∈ ts.filter isProjectXp,
        projectKey t ∈ (calculateXpByProject (.arr ts)).map Prod.fst ∧
          (t.object.bind TxObject.name = none → projectKey t = "Unknown Project") := by
  intro ts
  constructor
  · show sumValues ((ts.filter isProjectXp).foldl _ []) = _
    rw [sumValues_foldl]
    simp [sumValues]
  · intro t ht
    refine ⟨mem_keys_foldl_of_mem _ t ht [], ?_⟩
    intro hn
    cases hobj : t.object with
    | none => simp [projectKey, hobj]
    | some o =>
        cases hname : o.name with
        | none => simp [projectKey, hobj, hname]
        | some s =>
            rw [hobj] at hn
            simp [hname] at hn

/-- C2 witness: the sum identity on a list holding one nameless project-XP
record, whose XP lands under "Unknown Project". -/
theorem calculateXpByProject_sum_witness :
    sumValues (calculateXpByProject (.arr exNoNameTs)) =
        sumAmounts (exNoNameTs.filter isProjectXp) ∧
      "Unknown Project" ∈ (calculateXpByProject (.arr exNoNameTs)).map Prod.fst := by
  have h := calculateXpByProject_sum_preserved exNoNameTs
  refine ⟨h.1, ?_⟩
  have h2 := h.2 exNoName (by decide)
  have h3 : projectKey exNoName = "Unknown Project" := h2.2 (by decide)
  rw [← h3]
  exact h2.1

/-- C7 counterexample: the same one-record input rendered under two host
date-formatting environments (two locales' `toLocaleDateString`) gives
different outputs — the emitted date string is not determined by the
record's `createdAt` alone, so the transform is not independent of ambient
environment state. -/
theorem cumulativeXpSeries_locale_dependent_cex :
    calculateXpProgress localeFmtA (.arr exOneTs) ≠
        calculateXpProgress localeFmtB (.arr exOneTs) ∧
      (calculateXpProgress localeFmtA (.arr exOneTs)).map XpPoint.date ≠
        (calculateXpProgress localeFmtB (.arr exOneTs)).map XpPoint.date :=
  ⟨by decide, by decide⟩

/-- C7 amended: the transforms are pure and deterministic given the input
and the host's date-formatting environment: the numeric fields (`totalXp`,
`totalXpMB`) of `calculateXpProgress` are determined by the input alone
(identical under any two environments), while each point's `date` is the
environment's rendering of the corresponding sorted record's `createdAt`. -/
theorem cumulativeXpSeries_deterministic_given_locale :
    ∀ (fmt₁ fmt₂ : Int → String) (inp : JsInput Transaction),
      (calculateXpProgress fmt₁ inp).map (fun p => (p.totalXp, p.totalXpMB)) =
        (calculateXpProgress fmt₂ inp).map (fun p => (p.totalXp, p.totalXpMB)) ∧
      (calculateXpProgress fmt₁ inp).map XpPoint.date =
        (sortByCreatedAt ((inputList inp).filter isProjectXp)).map
          (fun t => fmt₁ t.createdAt) := by
  intro fmt₁ fmt₂ inp
  cases inp with
  | undef => exact ⟨rfl, rfl⟩
  | nonList => exact ⟨rfl, rfl⟩
  | arr ts =>
      exact ⟨cumulativeFrom_map_pair fmt₁ fmt₂ _ 0, cumulativeFrom_map_date fmt₁ _ 0⟩

/-- C10: when at least one project-XP record is present, the `totalXp` of
the last point of `calculateXpProgress` equals the sum of the values of
`calculateXpByProject` on the same list — the line chart's endpoint and the
bar chart's total agree. -/
theorem xpSeries_endpoint_matches_project_totals :
    ∀ (fmt : Int → String) (ts : List Transaction),
      ts.filter isProjectXp ≠ [] →
      ((calculateXpProgress fmt (.arr ts)).map XpPoint.totalXp).getLast? =
        some (sumValues (calculateXpByProject (.arr ts))) := by
  intro fmt ts h
  have hsortne : sortByCreatedAt (ts.filter isProjectXp) ≠ [] := by
    intro he
    apply h
    have hl := sortByCreatedAt_length (ts.filter isProjectXp)
    rw [he] at hl
    exact List.length_eq_zero.mp hl.symm
  have hlast := cumulativeFrom_last fmt (sortByCreatedAt (ts.filter isProjectXp)) 0 hsortne
  have hperm : sumAmounts (sortByCreatedAt (ts.filter isProjectXp)) =
      sumAmounts (ts.filter isProjectXp) :=
    sumAmounts_perm (sortByCreatedAt_perm _)
  have hmap : sumValues (calculateXpByProject (.arr ts)) =
      sumAmounts (ts.filter isProjectXp) := by
    show sumValues ((ts.filter isProjectXp).foldl _ []) = _
    rw [sumValues_foldl]
    simp [sumValues]
  show ((cumulativeFrom fmt 0 (sortByCreatedAt (ts.filter isProjectXp))).map
      XpPoint.totalXp).getLast? = _
  rw [hlast, hperm, zero_add, hmap]

/-- C10 witness: on the spec's two-record example the series ends at
3000000, the total of the per-project map. -/
theorem xpSeries_endpoint_witness :
    ((calculateXpProgress localeFmtA (.arr exTwoTs)).map XpPoint.totalXp).getLast? =
      some (sumValues (calculateXpByProject (.arr exTwoTs))) :=
  xpSeries_endpoint_matches_project_totals localeFmtA exTwoTs (by decide)

/-- C8: for every non-empty mapping given to the bar chart renderer, the
rendered entries are `barDisplayData`: at most 10 of them (exactly
`min 10 n`), pairwise in descending order of summed XP value, each an entry
of the input mapping, and every key left out has a value no larger than any
rendered one — exactly the highest-sum projects in descending order. -/
theorem barChart_top10_descending :
    ∀ (data : List (String × Int)) (c : ChartContent),
      data ≠ [] →
      drawXpByProjectBarChart (some c) (some data) =
          some (.svgBar (barDisplayData data)) ∧
        (barDisplayData data).length = min 10 data.length ∧
        List.Pairwise (fun x y : String × Int => y.2 ≤ x.2) (barDisplayData data) ∧
        (∀ e ∈ barDisplayData data, e ∈ data) ∧
        (∀ e ∈ barDisplayData data, ∀ k' ∈ data.map Prod.fst,
          k' ∉ (barDisplayData data).map Prod.fst → getVal data k' ≤ e.2) := by
  intro data c hne
  haveI : IsTotal String (byValueDesc data) :=
    ⟨fun a b => (le_total (getVal data a) (getVal data b)).symm⟩
  haveI : IsTrans String (byValueDesc data) :=
    ⟨fun a b c hab hbc => le_trans hbc hab⟩
  have hperm : (barSortedKeys data).Perm (data.map Prod.fst) :=
    List.perm_insertionSort _ _
  have hlen : (barSortedKeys data).length = data.length := by
    rw [hperm.length_eq, List.length_map]
  have hklen : ¬ (barSortedKeys data).length = 0 := by
    rw [hlen]
    intro h0
    exact hne (List.length_eq_zero.mp h0)
  have hdraw : drawXpByProjectBarChart (some c) (some data) =
      some (.svgBar (barDisplayData data)) := by
    simp [drawXpByProjectBarChart, hklen]
  have hkeys : (barDisplayData data).map Prod.fst = (barSortedKeys data).take 10 := by
    simp only [barDisplayData, List.map_map]
    have hid : (Prod.fst ∘ fun k : String => (k, getVal data k)) = id := rfl
    rw [hid, List.map_id]
  have hpw : List.Pairwise (byValueDesc data) (barSortedKeys data) :=
    List.sorted_insertionSort (byValueDesc data) (data.map Prod.fst)
  have hlen2 : (barDisplayData data).length = min 10 data.length := by
    simp [barDisplayData, List.length_take, hlen]
  have hsorted : List.Pairwise (fun x y : String × Int => y.2 ≤ x.2)
      (barDisplayData data) := by
    have htake : List.Pairwise (byValueDesc data) ((barSortedKeys data).take 10) :=
      List.Pairwise.sublist (List.take_sublist 10 _) hpw
    exact List.pairwise_map.mpr htake
  have hmem : ∀ e ∈ barDisplayData data, e ∈ data := by
    intro e he
    obtain ⟨k, hk, rfl⟩ := List.mem_map.mp he
    have hk1 : k ∈ barSortedKeys data := List.mem_of_mem_take hk
    exact mem_of_getVal data k (hperm.mem_iff.mp hk1)
  have htop : ∀ e ∈ barDisplayData data, ∀ k' ∈ data.map Prod.fst,
      k' ∉ (barDisplayData data).map Prod.fst → getVal data k' ≤ e.2 := by
    intro e he k' hk' hnot
    obtain ⟨k, hk, rfl⟩ := List.mem_map.mp he
    rw [hkeys] at hnot
    have hk'sorted : k' ∈ barSortedKeys data := hperm.mem_iff.mpr hk'
    have hk'drop : k' ∈ (barSortedKeys data).drop 10 := by
      rw [← List.take_append_drop 10 (barSortedKeys data)] at hk'sorted
      rcases List.mem_append.mp hk'sorted with h | h
      · exact absurd h hnot
      · exact h
    have hpw2 := hpw
    rw [← List.take_append_drop 10 (barSortedKeys data)] at hpw2
    exact (List.pairwise_append.mp hpw2).2.2 k hk k' hk'drop
  exact ⟨hdraw, hlen2, hsorted, hmem, htop⟩

/-- C8 witness: the contract evaluated on 15 projects with distinct sums;
the rendered entries are exactly the 10 highest-sum projects in descending
order. -/
theorem barChart_top10_witness :
    (drawXpByProjectBarChart (some (.text "old")) (some ex15) =
        some (.svgBar (barDisplayData ex15)) ∧
      (barDisplayData ex15).length = min 10 ex15.length ∧
      List.Pairwise (fun x y : String × Int => y.2 ≤ x.2) (barDisplayData ex15) ∧
      (∀ e ∈ barDisplayData ex15, e ∈ ex15) ∧
      (∀ e ∈ barDisplayData ex15, ∀ k' ∈ ex15.map Prod.fst,
        k' ∉ (barDisplayData ex15).map Prod.fst → getVal ex15 k' ≤ e.2)) ∧
      barDisplayData ex15 =
        [("P15", 150), ("P04", 140), ("P13", 130), ("P02", 120), ("P11", 110),
         ("P10", 100), ("P09", 90), ("P08", 80), ("P07", 70), ("P06", 60)] :=
  ⟨barChart_top10_descending ex15 (.text "old") (by decide), by decide⟩

/-- C9: each chart renderer is idempotent — rendering the same series into
its own previous output yields the same content as a single render — and
each replaces the container content with the no-data message on absent or
empty input instead of failing. -/
theorem chartRenderers_idempotent_and_no_data :
    ∀ (c : ChartContent) (ld : Option (List XpPoint))
      (bd : Option (List (String × Int))) (rd : Option (List SkillNode)),
      drawXpProgressLineChart (drawXpProgressLineChart (some c) ld) ld =
        drawXpProgressLineChart (some c) ld ∧
      drawXpByProjectBarChart (drawXpByProjectBarChart (some c) bd) bd =
        drawXpByProjectBarChart (some c) bd ∧
      drawSkillsRadarChart (drawSkillsRadarChart (some c) rd) rd =
        drawSkillsRadarChart (some c) rd ∧
      drawXpProgressLineChart (some c) none = some (.text ErrorMessages.NO_DATA) ∧
      drawXpProgressLineChart (some c) (some []) = some (.text ErrorMessages.NO_DATA) ∧
      drawXpByProjectBarChart (some c) none = some (.text ErrorMessages.NO_DATA) ∧
      drawXpByProjectBarChart (some c) (some []) = some (.text ErrorMessages.NO_DATA) ∧
      drawSkillsRadarChart (some c) none = some (.text ErrorMessages.NO_DATA) ∧
      drawSkillsRadarChart (some c) (some []) = some (.text ErrorMessages.NO_DATA) := by
  intro c ld bd rd
  refine ⟨?_, ?_, ?_, rfl, rfl, rfl, rfl, rfl, rfl⟩
  · cases ld with
    | none => rfl
    | some l => cases l <;> rfl
  · cases bd with
    | none => rfl
    | some d =>
        by_cases h : (barSortedKeys d).length = 0 <;>
          simp [drawXpByProjectBarChart, h]
  · cases rd with
    | none => rfl
    | some l =>
        cases l with
        | nil => rfl
        | cons n ns =>
            by_cases h : (skillSeries (n :: ns)).length = 0 <;>
              simp [drawSkillsRadarChart, h]
